import Mathlib

/-!
Shallow embedding of the split-bot Telegram relay (src/ai.py and src/main.py).

The outbound client `ai.py` is modelled by `SplitBotRequest`,
`SplitBotRequest.to_dict` and `process_message`; the Telegram handlers of
`main.py` are modelled as functions from an inbound update and the results of
the external calls (the HTTP POST, Telegram's `get_file`) to the list of
side-effecting actions the handler performs, paired with the exception (if
any) escaping the handler.  JSON objects are insertion-ordered key/value
lists, matching Python dicts.
-/

namespace SplitBot

/-- A JSON value as it occurs in this bot's request and response bodies:
every field is a string or null (Python `None`). -/
inductive JsonVal where
  | null : JsonVal
  | str (s : String) : JsonVal
deriving DecidableEq

/-- A Python string-or-`None` value serialized to JSON. -/
def jsonOfPyStr : Option String → JsonVal
  | none => JsonVal.null
  | some s => JsonVal.str s

/-- The `SplitBotRequest` constructor of `ai.py`.  The Python annotation of
`sender` is `str`, but it is unchecked and `main.py` passes
`from_user.username`, which Telegram leaves unset for users without a
username; the field is therefore modelled as optional.  `image_url` defaults
to `None` in the source. -/
structure SplitBotRequest where
  message : String
  group_id : String
  sender : Option String
  image_url : Option String
deriving DecidableEq

/-- `SplitBotRequest.to_dict` of `ai.py`: emits `message`, `group_id` and
`sender` unconditionally, and appends `image_url` only when it is not
`None`. -/
def SplitBotRequest.to_dict (r : SplitBotRequest) : List (String × JsonVal) :=
  let result : List (String × JsonVal) :=
    [("message", JsonVal.str r.message),
     ("group_id", JsonVal.str r.group_id),
     ("sender", jsonOfPyStr r.sender)]
  match r.image_url with
  | some u => result ++ [("image_url", JsonVal.str u)]
  | none => result

/-- The HTTP response received by `process_message`: a status code and the
body, which is `none` when the body is not valid JSON (in which case
`response.json()` raises) and otherwise the decoded JSON object. -/
structure HttpResponse where
  status_code : Nat
  jsonBody : Option (List (String × JsonVal))

/-- The possible outcomes of a `process_message` call in `ai.py`:
the `ValueError` for a missing `SPLIT_BOT_URL`, the decode error raised by
`response.json()`, the `ValueError` carrying a non-200 status code, the
`ValueError` carrying the body's `error` message, or the returned value of
`response_data.get("response", "")`. -/
inductive ProcessOutcome where
  | configError : ProcessOutcome
  | jsonError : ProcessOutcome
  | statusError (code : Nat) : ProcessOutcome
  | upstreamError (msg : String) : ProcessOutcome
  | success (v : JsonVal) : ProcessOutcome
deriving DecidableEq

/-- Python truthiness test `not SPLIT_BOT_URL` on `os.getenv` output:
true when the variable is absent or the empty string. -/
def pyFalsyEnv : Option String → Bool
  | none => true
  | some s => s == ""

/-- `response_data.get("error") or ""` of `ai.py` line 56: an absent key
gives `None`, and `x or ""` turns `None` and `""` (the falsy values of the
string/null field) into `""`, leaving any other string unchanged. -/
def pyOrEmpty : Option JsonVal → String
  | none => ""
  | some JsonVal.null => ""
  | some (JsonVal.str s) => s

/-- The normalized `error` field of a response body (`ai.py` line 56). -/
def errorField (d : List (String × JsonVal)) : String :=
  pyOrEmpty (d.lookup "error")

/-- `process_message` of `ai.py`, as a function of the `SPLIT_BOT_URL`
environment variable and the HTTP response produced by the POST.  The body
is decoded (`response.json()`, line 48) before the status-code check
(line 52); then the normalized `error` field is checked (lines 56-58); then
`response_data.get("response", "")` is returned (line 61). -/
def process_message (SPLIT_BOT_URL : Option String) (resp : HttpResponse) :
    ProcessOutcome :=
  if pyFalsyEnv SPLIT_BOT_URL then ProcessOutcome.configError
  else
    match resp.jsonBody with
    | none => ProcessOutcome.jsonError
    | some response_data =>
      if resp.status_code ≠ 200 then ProcessOutcome.statusError resp.status_code
      else if errorField response_data ≠ "" then
        ProcessOutcome.upstreamError (errorField response_data)
      else
        ProcessOutcome.success ((response_data.lookup "response").getD (JsonVal.str ""))

/-- A Telegram user, as read by the handlers: `from_user.username`, which
Telegram leaves unset (`None`) for users without a username. -/
structure User where
  username : Option String
deriving DecidableEq

/-- A Telegram chat; the handlers read `chat.id`. -/
structure Chat where
  id : Int
deriving DecidableEq

/-- One photo size variant of a Telegram photo message; the handlers read
`file_id`, and the width/height give the variant's resolution. -/
structure PhotoSize where
  file_id : String
  width : Nat
  height : Nat
deriving DecidableEq

/-- A Telegram document attachment; the handlers read `file_id`. -/
structure Document where
  file_id : String
deriving DecidableEq

/-- A Telegram message, restricted to the fields the handlers read.
`photo` is the (possibly empty) list of size variants. -/
structure Message where
  text : Option String
  photo : List PhotoSize
  document : Option Document
  chat : Chat
  from_user : User
deriving DecidableEq

/-- A Telegram update; `message` is `None` for non-message updates. -/
structure Update where
  message : Option Message
deriving DecidableEq

/-- The result of `context.bot.get_file`: the handlers read `file_path`,
which may be `None`. -/
structure TGFile where
  file_path : Option String
deriving DecidableEq

/-- The observable side effects a handler performs, in order:
`reply_text`, `processing_msg.delete()`, `context.bot.get_file`, and the
invocation of `ai.process_message` with the built request. -/
inductive Action where
  | replyText (text : String) : Action
  | deleteMsg : Action
  | getFile (file_id : String) : Action
  | callProcess (request : SplitBotRequest) : Action
deriving DecidableEq

/-- True exactly on the outbound-call action. -/
def Action.isCall : Action → Bool
  | Action.callProcess _ => true
  | _ => false

/-- Whether `needle` occurs as a contiguous sublist of `haystack`. -/
def containsSub (needle : List Char) : List Char → Bool
  | [] => needle.isPrefixOf []
  | c :: rest => needle.isPrefixOf (c :: rest) || containsSub needle rest

/-- Python's substring test `needle in haystack` on strings. -/
def pyIn (needle haystack : String) : Bool :=
  containsSub needle.data haystack.data

/-- A `try` block's outcome (actions performed so far, plus the exception it
raised, if any) composed with an `except Exception` clause that runs its own
actions and swallows the exception. -/
def tryExcept (tryBlock : List Action × Option String)
    (excClause : String → List Action) : List Action × Option String :=
  match tryBlock with
  | (acts, none) => (acts, none)
  | (acts, some e) => (acts ++ excClause e, none)

/-- `handle_message` of `main.py`, as a function of the configured
`BOT_NAME`, the inbound update, and the outcome of the `process_message`
call (`Except.error e` when it raises an exception rendered as `e`).
Returns the handler's action trace and the exception escaping it, if any.
Python's `if not update.message or not update.message.text` treats a missing
message, missing text, and empty text alike; the mention filter is
`f"@{BOT_NAME}" not in update.message.text`. -/
def handle_message (BOT_NAME : String) (update : Update)
    (procResult : Except String String) : List Action × Option String :=
  match update.message with
  | none => ([], none)
  | some message =>
    match message.text with
    | none => ([], none)
    | some text =>
      if text = "" then ([], none)
      else if pyIn ("@" ++ BOT_NAME) text = false then ([], none)
      else
        let group_id := toString message.chat.id
        let sender := message.from_user.username
        let tryBlock : List Action × Option String :=
          let request : SplitBotRequest :=
            { message := text, group_id := group_id, sender := sender,
              image_url := none }
          match procResult with
          | Except.ok ai_response =>
            ([Action.callProcess request, Action.deleteMsg,
              Action.replyText ai_response], none)
          | Except.error e => ([Action.callProcess request], some e)
        let result := tryExcept tryBlock
          (fun e => [Action.deleteMsg,
                     Action.replyText ("Error processing message: " ++ e)])
        (Action.replyText "Processing with AI..." :: result.1, result.2)

/-- The `file_id` selection of `handle_image` (`main.py` lines 33-43):
a nonempty `photo` list yields `photo[-1].file_id`, otherwise a document
yields its `file_id`, otherwise the handler returns without acting. -/
def selectedFileId (message : Message) : Option String :=
  match message.photo.getLast? with
  | some photo => some photo.file_id
  | none =>
    match message.document with
    | some document => some document.file_id
    | none => none

/-- `handle_image` of `main.py`, as a function of the inbound update, the
outcome of `context.bot.get_file`, and the outcome of the `process_message`
call.  Inside the `try` block, a falsy `file.file_path` (`None` or the empty
string) raises `ValueError("File path is None - cannot construct image
URL")`; otherwise the file path is used directly as the image URL. -/
def handle_image (update : Update) (getFileResult : Except String TGFile)
    (procResult : Except String String) : List Action × Option String :=
  match update.message with
  | none => ([], none)
  | some message =>
    match selectedFileId message with
    | none => ([], none)
    | some file_id =>
      let group_id := toString message.chat.id
      let sender := message.from_user.username
      let tryBlock : List Action × Option String :=
        match getFileResult with
        | Except.error e => ([Action.getFile file_id], some e)
        | Except.ok file =>
          match file.file_path with
          | none =>
            ([Action.getFile file_id],
             some "File path is None - cannot construct image URL")
          | some image_url =>
            if image_url = "" then
              ([Action.getFile file_id],
               some "File path is None - cannot construct image URL")
            else
              let request : SplitBotRequest :=
                { message := "", group_id := group_id, sender := sender,
                  image_url := some image_url }
              match procResult with
              | Except.ok ai_response =>
                ([Action.getFile file_id, Action.callProcess request,
                  Action.deleteMsg, Action.replyText ai_response], none)
              | Except.error e =>
                ([Action.getFile file_id, Action.callProcess request], some e)
      let result := tryExcept tryBlock
        (fun e => [Action.deleteMsg,
                   Action.replyText ("Error processing image: " ++ e)])
      (Action.replyText "Processing with AI..." :: result.1, result.2)

/-- The exception (if any) that `handle_image`'s file resolution raises:
the `get_file` failure itself, or the `ValueError` for a falsy
`file.file_path`. -/
def resolutionError : Except String TGFile → Option String
  | Except.error e => some e
  | Except.ok file =>
    match file.file_path with
    | none => some "File path is None - cannot construct image URL"
    | some p =>
      if p = "" then some "File path is None - cannot construct image URL"
      else none

/-- The exception (if any) raised inside `handle_image`'s `try` block:
a resolution failure takes precedence (the AI call is never reached),
otherwise a failing `process_message` call. -/
def raisedInImage (getFileResult : Except String TGFile)
    (procResult : Except String String) : Option String :=
  match resolutionError getFileResult with
  | some e => some e
  | none =>
    match procResult with
    | Except.error e => some e
    | Except.ok _ => none

/-- The pixel count of a photo size variant, ordering the variants by
resolution. -/
def pixelArea (p : PhotoSize) : Nat := p.width * p.height

/-- A sample author with a username. -/
def sampleUser : User := ⟨some "alice"⟩

/-- A sample chat. -/
def sampleChat : Chat := ⟨77⟩

/-- A sample text message mentioning the bot `SplitBot`. -/
def mentionMsg : Message := ⟨some "@SplitBot split 30 please", [], none, sampleChat, sampleUser⟩

/-- A sample update carrying `mentionMsg`. -/
def mentionUpdate : Update := ⟨some mentionMsg⟩

/-- A sample text message that does not mention the bot. -/
def plainMsg : Message := ⟨some "hello there", [], none, sampleChat, sampleUser⟩

/-- A sample update carrying `plainMsg`. -/
def plainUpdate : Update := ⟨some plainMsg⟩

/-- A sample photo message with two size variants, the larger one last. -/
def photoMsg : Message := ⟨none, [⟨"small", 90, 90⟩, ⟨"big", 1280, 1280⟩], none, sampleChat, sampleUser⟩

/-- A sample update carrying `photoMsg`. -/
def photoUpdate : Update := ⟨some photoMsg⟩

/-- A sample mention message whose author has no username. -/
def noUsernameMsg : Message := ⟨some "@SplitBot split 30", [], none, sampleChat, ⟨none⟩⟩

/-- A sample update carrying `noUsernameMsg`. -/
def noUsernameUpdate : Update := ⟨some noUsernameMsg⟩

/-! ### Helper lemmas about the embedded handlers -/

/-- The mention token `"@" ++ BOT_NAME` is never a substring of the empty
message text. -/
theorem pyIn_mention_empty (BOT_NAME : String) : pyIn ("@" ++ BOT_NAME) "" = false := by
  cases BOT_NAME with
  | mk l =>
    show containsSub ('@' :: l) [] = false
    rfl

/-- Trace of `handle_message` on an activated text event: the processing
notice, the outbound call on the built request, then (depending on the AI
call's outcome) the deletion and the final reply. -/
theorem handle_message_activated (BOT_NAME : String) (m : Message) (t : String)
    (procResult : Except String String) (ht : m.text = some t)
    (htne : t ≠ "") (hin : pyIn ("@" ++ BOT_NAME) t = true) :
    handle_message BOT_NAME ⟨some m⟩ procResult =
      (Action.replyText "Processing with AI..." ::
       Action.callProcess ⟨t, toString m.chat.id, m.from_user.username, none⟩ ::
       (match procResult with
        | Except.ok ai_response => [Action.deleteMsg, Action.replyText ai_response]
        | Except.error e =>
            [Action.deleteMsg, Action.replyText ("Error processing message: " ++ e)]),
       none) := by
  cases procResult <;> simp [handle_message, ht, htne, hin, tryExcept]

/-- Trace of `handle_image` when the file reference resolves to a truthy
URL: notice, `get_file`, the outbound call on the built request, then the
deletion and the final reply. -/
theorem handle_image_resolved (m : Message) (fid : String) (file : TGFile)
    (p : String) (procResult : Except String String)
    (hf : selectedFileId m = some fid) (hp : file.file_path = some p)
    (hpne : p ≠ "") :
    handle_image ⟨some m⟩ (Except.ok file) procResult =
      (Action.replyText "Processing with AI..." :: Action.getFile fid ::
       Action.callProcess ⟨"", toString m.chat.id, m.from_user.username, some p⟩ ::
       (match procResult with
        | Except.ok ai_response => [Action.deleteMsg, Action.replyText ai_response]
        | Except.error e =>
            [Action.deleteMsg, Action.replyText ("Error processing image: " ++ e)]),
       none) := by
  cases procResult <;> simp [handle_image, hf, hp, hpne, tryExcept]

/-- Trace of `handle_image` when file resolution fails: notice, `get_file`,
then the deletion and the error reply, with no outbound call. -/
theorem handle_image_unresolved (m : Message) (fid : String)
    (getFileResult : Except String TGFile) (procResult : Except String String)
    (e : String) (hf : selectedFileId m = some fid)
    (he : resolutionError getFileResult = some e) :
    handle_image ⟨some m⟩ getFileResult procResult =
      ([Action.replyText "Processing with AI...", Action.getFile fid,
        Action.deleteMsg, Action.replyText ("Error processing image: " ++ e)],
       none) := by
  cases getFileResult with
  | error e2 =>
    have he2 : e2 = e := by simpa [resolutionError] using he
    subst he2
    simp [handle_image, hf, tryExcept]
  | ok file =>
    cases hfp : file.file_path with
    | none =>
      have he2 : e = "File path is None - cannot construct image URL" := by
        simp [resolutionError, hfp] at he
        exact he.symm
      subst he2
      simp [handle_image, hf, hfp, tryExcept]
    | some p =>
      by_cases hpe : p = ""
      · subst hpe
        have he2 : e = "File path is None - cannot construct image URL" := by
          simp [resolutionError, hfp] at he
          exact he.symm
        subst he2
        simp [handle_image, hf, hfp, tryExcept]
      · simp [resolutionError, hfp, hpe] at he

/-- When `resolutionError` reports no failure, `get_file` succeeded with a
truthy file path. -/
theorem resolutionError_none (getFileResult : Except String TGFile)
    (h : resolutionError getFileResult = none) :
    ∃ file p, getFileResult = Except.ok file ∧ file.file_path = some p ∧ p ≠ "" := by
  cases getFileResult with
  | error e => simp [resolutionError] at h
  | ok file =>
    cases hfp : file.file_path with
    | none => simp [resolutionError, hfp] at h
    | some p =>
      by_cases hpe : p = ""
      · simp [resolutionError, hfp, hpe] at h
      · exact ⟨file, p, rfl, hfp, hpe⟩

/-- In a list of photo sizes that is pairwise nondecreasing in pixel area,
the last element has maximal pixel area. -/
theorem pairwise_pixelArea_getLast (l : List PhotoSize) (hne : l ≠ [])
    (hs : List.Pairwise (fun a b => pixelArea a ≤ pixelArea b) l) :
    ∀ q ∈ l, pixelArea q ≤ pixelArea (l.getLast hne) := by
  induction l with
  | nil => exact absurd rfl hne
  | cons a tl ih =>
    cases tl with
    | nil =>
      intro q hq
      have hq2 : q = a := by simpa using hq
      subst hq2
      simp [List.getLast]
    | cons b tl2 =>
      intro q hq
      rw [List.getLast_cons (List.cons_ne_nil b tl2)]
      rcases List.mem_cons.mp hq with rfl | hq2
      · exact (List.pairwise_cons.mp hs).1 _ (List.getLast_mem (List.cons_ne_nil b tl2))
      · exact ih (List.cons_ne_nil b tl2) (List.pairwise_cons.mp hs).2 q hq2

/-- Inversion for `handle_message` traces: any outbound call in the trace
carries the request built from the event (full text, stringified chat id,
the author's username, no image URL). -/
theorem handle_message_call_inv (BOT_NAME : String) (m : Message)
    (procResult : Except String String) (req : SplitBotRequest)
    (hmem : Action.callProcess req ∈ (handle_message BOT_NAME ⟨some m⟩ procResult).1) :
    ∃ t, m.text = some t ∧ pyIn ("@" ++ BOT_NAME) t = true ∧
      req = ⟨t, toString m.chat.id, m.from_user.username, none⟩ := by
  cases htx : m.text with
  | none => simp [handle_message, htx] at hmem
  | some t =>
    by_cases hte : t = ""
    · simp [handle_message, htx, hte] at hmem
    · by_cases hin : pyIn ("@" ++ BOT_NAME) t = true
      · rw [handle_message_activated BOT_NAME m t procResult htx hte hin] at hmem
        cases procResult <;> simp at hmem <;> exact ⟨t, rfl, hin, hmem⟩
      · rw [Bool.not_eq_true] at hin
        simp [handle_message, htx, hte, hin] at hmem

/-- Inversion for `handle_image` traces: any outbound call in the trace
carries the request built from the event (empty message, stringified chat
id, the author's username, and the truthy resolved file path as the image
URL). -/
theorem handle_image_call_inv (m : Message)
    (getFileResult : Except String TGFile) (procResult : Except String String)
    (req : SplitBotRequest)
    (hmem : Action.callProcess req ∈ (handle_image ⟨some m⟩ getFileResult procResult).1) :
    ∃ p, p ≠ "" ∧
      req = ⟨"", toString m.chat.id, m.from_user.username, some p⟩ := by
  cases hfid : selectedFileId m with
  | none => simp [handle_image, hfid] at hmem
  | some fid =>
    cases hres : resolutionError getFileResult with
    | some e =>
      rw [handle_image_unresolved m fid getFileResult procResult e hfid hres] at hmem
      simp at hmem
    | none =>
      obtain ⟨file, p, hgf, hp, hpne⟩ := resolutionError_none getFileResult hres
      subst hgf
      rw [handle_image_resolved m fid file p procResult hfid hp hpne] at hmem
      cases procResult <;> simp at hmem <;> exact ⟨p, hpne, hmem⟩

/-- Every `handle_message` trace is either empty or a notice-headed trace
ending in the single deletion followed by the single final reply. -/
theorem handle_message_shape (BOT_NAME : String) (upd : Update)
    (procResult : Except String String) :
    (handle_message BOT_NAME upd procResult).1 = [] ∨
    ∃ pre s, (handle_message BOT_NAME upd procResult).1 =
        pre ++ [Action.deleteMsg, Action.replyText s] ∧
      Action.deleteMsg ∉ pre ∧
      Action.replyText "Processing with AI..." ∈ pre ∧
      ∀ s', Action.replyText s' ∈ pre → s' = "Processing with AI..." := by
  cases upd with
  | mk om =>
    cases om with
    | none => exact Or.inl rfl
    | some m =>
      cases htx : m.text with
      | none => exact Or.inl (by simp [handle_message, htx])
      | some t =>
        by_cases hte : t = ""
        · exact Or.inl (by simp [handle_message, htx, hte])
        · by_cases hin : pyIn ("@" ++ BOT_NAME) t = true
          · right
            rw [handle_message_activated BOT_NAME m t procResult htx hte hin]
            cases procResult with
            | ok ai_response =>
              exact ⟨[Action.replyText "Processing with AI...",
                      Action.callProcess ⟨t, toString m.chat.id, m.from_user.username, none⟩],
                     ai_response, by simp, by simp, by simp,
                     by intro s' hs'; simpa using hs'⟩
            | error e =>
              exact ⟨[Action.replyText "Processing with AI...",
                      Action.callProcess ⟨t, toString m.chat.id, m.from_user.username, none⟩],
                     "Error processing message: " ++ e, by simp, by simp, by simp,
                     by intro s' hs'; simpa using hs'⟩
          · rw [Bool.not_eq_true] at hin
            exact Or.inl (by simp [handle_message, htx, hte, hin])

/-- Every `handle_image` trace is either empty or a notice-headed trace
ending in the single deletion followed by the single final reply. -/
theorem handle_image_shape (upd : Update) (getFileResult : Except String TGFile)
    (procResult : Except String String) :
    (handle_image upd getFileResult procResult).1 = [] ∨
    ∃ pre s, (handle_image upd getFileResult procResult).1 =
        pre ++ [Action.deleteMsg, Action.replyText s] ∧
      Action.deleteMsg ∉ pre ∧
      Action.replyText "Processing with AI..." ∈ pre ∧
      ∀ s', Action.replyText s' ∈ pre → s' = "Processing with AI..." := by
  cases upd with
  | mk om =>
    cases om with
    | none => exact Or.inl rfl
    | some m =>
      cases hfid : selectedFileId m with
      | none => exact Or.inl (by simp [handle_image, hfid])
      | some fid =>
        right
        cases hres : resolutionError getFileResult with
        | some e =>
          rw [handle_image_unresolved m fid getFileResult procResult e hfid hres]
          exact ⟨[Action.replyText "Processing with AI...", Action.getFile fid],
                 "Error processing image: " ++ e, by simp, by simp, by simp,
                 by intro s' hs'; simpa using hs'⟩
        | none =>
          obtain ⟨file, p, hgf, hp, hpne⟩ := resolutionError_none getFileResult hres
          subst hgf
          rw [handle_image_resolved m fid file p procResult hfid hp hpne]
          cases procResult with
          | ok ai_response =>
            exact ⟨[Action.replyText "Processing with AI...", Action.getFile fid,
                    Action.callProcess ⟨"", toString m.chat.id, m.from_user.username, some p⟩],
                   ai_response, by simp, by simp, by simp,
                   by intro s' hs'; simpa using hs'⟩
          | error e =>
            exact ⟨[Action.replyText "Processing with AI...", Action.getFile fid,
                    Action.callProcess ⟨"", toString m.chat.id, m.from_user.username, some p⟩],
                   "Error processing image: " ++ e, by simp, by simp, by simp,
                   by intro s' hs'; simpa using hs'⟩

/-- No exception ever escapes `handle_message`. -/
theorem handle_message_no_escape (BOT_NAME : String) (upd : Update)
    (procResult : Except String String) :
    (handle_message BOT_NAME upd procResult).2 = none := by
  cases upd with
  | mk om =>
    cases om with
    | none => rfl
    | some m =>
      cases htx : m.text with
      | none => simp [handle_message, htx]
      | some t =>
        by_cases hte : t = ""
        · simp [handle_message, htx, hte]
        · by_cases hin : pyIn ("@" ++ BOT_NAME) t = true
          · rw [handle_message_activated BOT_NAME m t procResult htx hte hin]
          · rw [Bool.not_eq_true] at hin
            simp [handle_message, htx, hte, hin]

/-- No exception ever escapes `handle_image`. -/
theorem handle_image_no_escape (upd : Update) (getFileResult : Except String TGFile)
    (procResult : Except String String) :
    (handle_image upd getFileResult procResult).2 = none := by
  cases upd with
  | mk om =>
    cases om with
    | none => rfl
    | some m =>
      cases hfid : selectedFileId m with
      | none => simp [handle_image, hfid]
      | some fid =>
        cases hres : resolutionError getFileResult with
        | some e => rw [handle_image_unresolved m fid getFileResult procResult e hfid hres]
        | none =>
          obtain ⟨file, p, hgf, hp, hpne⟩ := resolutionError_none getFileResult hres
          subst hgf
          rw [handle_image_resolved m fid file p procResult hfid hp hpne]

/-! ### Claim theorems -/

/-- Claim C1: on a `process_message` call with the backend URL configured and
the response body decodable as JSON, the validation sequence is exactly
ordered: first, a non-200 HTTP status fails with the request-failure error
carrying the status code; second, if the body's `error` field, after
normalizing null and absence to the empty string, is non-empty, the call
fails with the upstream error carrying that message; otherwise it succeeds,
returning the body's `response` field, or the empty string when that field
is missing. -/
theorem claim_C1_validation_order (SPLIT_BOT_URL : Option String)
    (resp : HttpResponse) (response_data : List (String × JsonVal))
    (hcfg : pyFalsyEnv SPLIT_BOT_URL = false)
    (hjson : resp.jsonBody = some response_data) :
    (resp.status_code ≠ 200 →
      process_message SPLIT_BOT_URL resp = ProcessOutcome.statusError resp.status_code) ∧
    (resp.status_code = 200 → errorField response_data ≠ "" →
      process_message SPLIT_BOT_URL resp =
        ProcessOutcome.upstreamError (errorField response_data)) ∧
    (resp.status_code = 200 → errorField response_data = "" →
      process_message SPLIT_BOT_URL resp =
        ProcessOutcome.success ((response_data.lookup "response").getD (JsonVal.str ""))) := by
  refine ⟨fun hst => ?_, fun hst herr => ?_, fun hst herr => ?_⟩
  · simp [process_message, hcfg, hjson, hst]
  · simp [process_message, hcfg, hjson, hst, herr]
  · simp [process_message, hcfg, hjson, hst, herr]

/-- Concrete instance of `claim_C1_validation_order`: a 500 response with a
decodable body fails with the status-code error. -/
theorem claim_C1_witness :
    process_message (some "http://backend") ⟨500, some []⟩ =
      ProcessOutcome.statusError 500 :=
  (claim_C1_validation_order (some "http://backend") ⟨500, some []⟩ []
    (by decide) rfl).1 (by decide)

/-- Claim C10: `process_message` decodes the response body as JSON before
checking the status code, so a response whose body is not valid JSON —
including a non-200 response — fails with the JSON-decoding error, never
with the request-failure error carrying the status code. -/
theorem claim_C10_json_before_status (SPLIT_BOT_URL : Option String)
    (resp : HttpResponse) (hcfg : pyFalsyEnv SPLIT_BOT_URL = false)
    (hjson : resp.jsonBody = none) :
    process_message SPLIT_BOT_URL resp = ProcessOutcome.jsonError ∧
    ∀ code : Nat,
      process_message SPLIT_BOT_URL resp ≠ ProcessOutcome.statusError code := by
  have h : process_message SPLIT_BOT_URL resp = ProcessOutcome.jsonError := by
    simp [process_message, hcfg, hjson]
  exact ⟨h, fun code => by simp [h]⟩

/-- Concrete instance of `claim_C10_json_before_status`: a 500 response with
an undecodable body fails with the JSON-decoding error, not the status
error. -/
theorem claim_C10_witness :
    process_message (some "http://backend") ⟨500, none⟩ = ProcessOutcome.jsonError :=
  (claim_C10_json_before_status (some "http://backend") ⟨500, none⟩
    (by decide) rfl).1

/-- Claim C4: serialization always emits the keys `message`, `group_id` and
`sender`; it emits the `image_url` key exactly when `image_url` is set, and
when it is unset the key is entirely absent from the payload — in
particular never present with a null value. -/
theorem claim_C4_serialization (r : SplitBotRequest) :
    ("message", JsonVal.str r.message) ∈ r.to_dict ∧
    ("group_id", JsonVal.str r.group_id) ∈ r.to_dict ∧
    ("sender", jsonOfPyStr r.sender) ∈ r.to_dict ∧
    ((r.to_dict.map Prod.fst).contains "image_url" = true ↔ r.image_url.isSome = true) ∧
    (r.image_url = none → ∀ v : JsonVal, ("image_url", v) ∉ r.to_dict) := by
  obtain ⟨m, g, s, iu⟩ := r
  cases iu with
  | none =>
    refine ⟨by simp [SplitBotRequest.to_dict], by simp [SplitBotRequest.to_dict],
            by simp [SplitBotRequest.to_dict], by simp [SplitBotRequest.to_dict], ?_⟩
    intro _ v
    simp [SplitBotRequest.to_dict]
  | some u =>
    refine ⟨by simp [SplitBotRequest.to_dict], by simp [SplitBotRequest.to_dict],
            by simp [SplitBotRequest.to_dict], by simp [SplitBotRequest.to_dict], ?_⟩
    intro h
    exact absurd h (by simp)

/-- Concrete instance of `claim_C4_serialization`: a request without an
image URL serializes with the `image_url` key absent, not null. -/
theorem claim_C4_witness :
    ("image_url", JsonVal.null) ∉
      (SplitBotRequest.mk "hi" "77" (some "alice") none).to_dict :=
  (claim_C4_serialization (SplitBotRequest.mk "hi" "77" (some "alice") none)).2.2.2.2
    rfl JsonVal.null

/-- Claim C2: a text event produces no actions at all (no processing notice,
no outbound call, no reply) exactly when its body has no text containing the
mention token `"@" ++ BOT_NAME`; the activation check is the plain substring
test `pyIn`, with no word-boundary or case-insensitivity handling. -/
theorem claim_C2_no_mention_no_effects (BOT_NAME : String) (upd : Update)
    (procResult : Except String String) (m : Message)
    (hm : upd.message = some m) :
    (handle_message BOT_NAME upd procResult).1 = [] ↔
      ∀ t, m.text = some t → pyIn ("@" ++ BOT_NAME) t = false := by
  constructor
  · intro h t ht
    by_contra hinne
    rw [Bool.not_eq_false] at hinne
    have htne : t ≠ "" := by
      intro he
      subst he
      rw [pyIn_mention_empty] at hinne
      cases hinne
    cases procResult <;>
      simp [handle_message, hm, ht, htne, hinne, tryExcept] at h
  · intro hall
    cases htx : m.text with
    | none => simp [handle_message, hm, htx]
    | some t =>
      by_cases hte : t = ""
      · simp [handle_message, hm, htx, hte]
      · simp [handle_message, hm, htx, hte, hall t htx]

/-- Concrete instance of `claim_C2_no_mention_no_effects`: a text message
not mentioning the bot produces no actions. -/
theorem claim_C2_witness :
    (handle_message "SplitBot" plainUpdate (Except.ok "reply")).1 = [] :=
  (claim_C2_no_mention_no_effects "SplitBot" plainUpdate (Except.ok "reply")
    plainMsg rfl).mpr
    (fun t ht => by
      have ht2 : some "hello there" = some t := ht
      cases ht2
      decide)

/-- Claim C3: a text event containing the mention token makes exactly one
outbound call; its request carries the full original message text (mention
token included) and its serialized payload has no `image_url` key. -/
theorem claim_C3_mention_single_call (BOT_NAME : String) (upd : Update)
    (procResult : Except String String) (m : Message) (t : String)
    (hm : upd.message = some m) (ht : m.text = some t)
    (hin : pyIn ("@" ++ BOT_NAME) t = true) :
    ((handle_message BOT_NAME upd procResult).1.countP Action.isCall = 1) ∧
    ∀ req : SplitBotRequest,
      Action.callProcess req ∈ (handle_message BOT_NAME upd procResult).1 →
        req.message = t ∧
        (req.to_dict.map Prod.fst).contains "image_url" = false := by
  have htne : t ≠ "" := by
    intro he
    subst he
    rw [pyIn_mention_empty] at hin
    cases hin
  have hupd : upd = ⟨some m⟩ := by
    cases upd with
    | mk om =>
      have h2 : om = some m := hm
      rw [h2]
  rw [hupd, handle_message_activated BOT_NAME m t procResult ht htne hin]
  cases procResult with
  | ok ai_response =>
    refine ⟨by simp [List.countP_cons, Action.isCall], ?_⟩
    intro req hreq
    simp at hreq
    subst hreq
    exact ⟨rfl, rfl⟩
  | error e =>
    refine ⟨by simp [List.countP_cons, Action.isCall], ?_⟩
    intro req hreq
    simp at hreq
    subst hreq
    exact ⟨rfl, rfl⟩

/-- Concrete instance of `claim_C3_mention_single_call`: a mentioning text
message triggers exactly one outbound call. -/
theorem claim_C3_witness :
    (handle_message "SplitBot" mentionUpdate (Except.ok "done")).1.countP
      Action.isCall = 1 :=
  (claim_C3_mention_single_call "SplitBot" mentionUpdate (Except.ok "done")
    mentionMsg "@SplitBot split 30 please" rfl rfl (by decide)).1

/-- Claim C5: an image event (photo or document) whose file reference
resolves to a truthy URL makes exactly one outbound call, whose request has
an empty `message` and the non-empty resolved path as `image_url`; when the
photo list is sorted nondecreasingly by resolution (as Telegram delivers
it), the selected variant `photo[-1]` has maximal resolution. -/
theorem claim_C5_image_single_call (upd : Update)
    (getFileResult : Except String TGFile) (procResult : Except String String)
    (m : Message) (fid : String) (file : TGFile) (p : String)
    (hm : upd.message = some m) (hf : selectedFileId m = some fid)
    (hgf : getFileResult = Except.ok file) (hp : file.file_path = some p)
    (hpne : p ≠ "") :
    ((handle_image upd getFileResult procResult).1.countP Action.isCall = 1) ∧
    (∀ req : SplitBotRequest,
      Action.callProcess req ∈ (handle_image upd getFileResult procResult).1 →
        req.message = "" ∧ req.image_url = some p ∧ p ≠ "") ∧
    (∀ hne : m.photo ≠ [],
      List.Pairwise (fun a b => pixelArea a ≤ pixelArea b) m.photo →
        fid = (m.photo.getLast hne).file_id ∧
        ∀ q ∈ m.photo, pixelArea q ≤ pixelArea (m.photo.getLast hne)) := by
  have hupd : upd = ⟨some m⟩ := by
    cases upd with
    | mk om =>
      have h2 : om = some m := hm
      rw [h2]
  subst hgf
  rw [hupd, handle_image_resolved m fid file p procResult hf hp hpne]
  refine ⟨?_, ?_, ?_⟩
  · cases procResult <;> simp [List.countP_cons, Action.isCall]
  · intro req hreq
    cases procResult <;> simp at hreq <;> (subst hreq; exact ⟨rfl, rfl, hpne⟩)
  · intro hne hsorted
    have hlast : m.photo.getLast? = some (m.photo.getLast hne) :=
      List.getLast?_eq_getLast _ hne
    have hsel : selectedFileId m = some (m.photo.getLast hne).file_id := by
      simp [selectedFileId, hlast]
    rw [hf] at hsel
    injection hsel with h3
    exact ⟨h3, pairwise_pixelArea_getLast m.photo hne hsorted⟩

/-- Concrete instance of `claim_C5_image_single_call`: a two-variant photo
event with a resolvable file makes exactly one outbound call. -/
theorem claim_C5_witness :
    (handle_image photoUpdate (Except.ok ⟨some "http://file"⟩)
      (Except.ok "ocr")).1.countP Action.isCall = 1 :=
  (claim_C5_image_single_call photoUpdate (Except.ok ⟨some "http://file"⟩)
    (Except.ok "ocr") photoMsg "big" ⟨some "http://file"⟩ "http://file"
    rfl (by decide) rfl rfl (by decide)).1

/-- Claim C8: an image event whose file reference cannot be resolved (the
resolution call raises, or the resolved path is `None` or empty) replies
with an error message referencing the image-processing failure and makes no
outbound call. -/
theorem claim_C8_resolution_failure (upd : Update)
    (getFileResult : Except String TGFile) (procResult : Except String String)
    (m : Message) (fid : String) (e : String)
    (hm : upd.message = some m) (hf : selectedFileId m = some fid)
    (he : resolutionError getFileResult = some e) :
    ((handle_image upd getFileResult procResult).1.countP Action.isCall = 0) ∧
    (handle_image upd getFileResult procResult).1 =
      [Action.replyText "Processing with AI...", Action.getFile fid,
       Action.deleteMsg, Action.replyText ("Error processing image: " ++ e)] := by
  have hupd : upd = ⟨some m⟩ := by
    cases upd with
    | mk om =>
      have h2 : om = some m := hm
      rw [h2]
  rw [hupd, handle_image_unresolved m fid getFileResult procResult e hf he]
  exact ⟨by simp [List.countP_cons, Action.isCall], rfl⟩

/-- Concrete instance of `claim_C8_resolution_failure`: a failing `get_file`
call yields an error reply and no outbound call. -/
theorem claim_C8_witness :
    (handle_image photoUpdate (Except.error "getFile failed")
      (Except.ok "r")).1.countP Action.isCall = 0 :=
  (claim_C8_resolution_failure photoUpdate (Except.error "getFile failed")
    (Except.ok "r") photoMsg "big" "getFile failed" rfl (by decide) rfl).1

/-- Claim C6: in every handler invocation that sends the processing notice,
the notice deletion happens exactly once and immediately precedes the single
final reply, on every exit path of both handlers: the trace ends with the
deletion followed by one reply, no deletion occurs earlier, and the only
reply before the deletion is the notice itself. -/
theorem claim_C6_delete_before_reply (BOT_NAME : String) (upd : Update)
    (getFileResult : Except String TGFile) (procM procI : Except String String) :
    (Action.replyText "Processing with AI..." ∈ (handle_message BOT_NAME upd procM).1 →
      ∃ pre s, (handle_message BOT_NAME upd procM).1 =
          pre ++ [Action.deleteMsg, Action.replyText s] ∧
        Action.deleteMsg ∉ pre ∧
        ∀ s', Action.replyText s' ∈ pre → s' = "Processing with AI...") ∧
    (Action.replyText "Processing with AI..." ∈ (handle_image upd getFileResult procI).1 →
      ∃ pre s, (handle_image upd getFileResult procI).1 =
          pre ++ [Action.deleteMsg, Action.replyText s] ∧
        Action.deleteMsg ∉ pre ∧
        ∀ s', Action.replyText s' ∈ pre → s' = "Processing with AI...") := by
  constructor
  · intro hmem
    rcases handle_message_shape BOT_NAME upd procM with h | ⟨pre, s, heq, hnd, _, honly⟩
    · rw [h] at hmem
      cases hmem
    · exact ⟨pre, s, heq, hnd, honly⟩
  · intro hmem
    rcases handle_image_shape upd getFileResult procI with h | ⟨pre, s, heq, hnd, _, honly⟩
    · rw [h] at hmem
      cases hmem
    · exact ⟨pre, s, heq, hnd, honly⟩

/-- Concrete instance of `claim_C6_delete_before_reply`: on the timeout-like
error path of a mentioning text event, the trace still ends with the
deletion followed by the single final reply. -/
theorem claim_C6_witness :
    ∃ pre s, (handle_message "SplitBot" mentionUpdate (Except.error "timeout")).1 =
        pre ++ [Action.deleteMsg, Action.replyText s] ∧
      Action.deleteMsg ∉ pre ∧
      ∀ s', Action.replyText s' ∈ pre → s' = "Processing with AI..." :=
  (claim_C6_delete_before_reply "SplitBot" mentionUpdate
    (Except.ok ⟨some "http://file"⟩) (Except.error "timeout")
    (Except.ok "r")).1 (by decide)

/-- Claim C7: no exception raised during the handling of one event ever
escapes its handler; any exception raised inside the `try` block surfaces
as a final reply of the form `Error processing message: ...` or
`Error processing image: ...`. -/
theorem claim_C7_exceptions_contained (BOT_NAME : String) (upd : Update)
    (getFileResult : Except String TGFile) (procM procI : Except String String) :
    ((handle_message BOT_NAME upd procM).2 = none) ∧
    ((handle_image upd getFileResult procI).2 = none) ∧
    (∀ e, procM = Except.error e → (handle_message BOT_NAME upd procM).1 ≠ [] →
      ∃ pre, (handle_message BOT_NAME upd procM).1 =
        pre ++ [Action.replyText ("Error processing message: " ++ e)]) ∧
    (∀ e, raisedInImage getFileResult procI = some e →
      (handle_image upd getFileResult procI).1 ≠ [] →
      ∃ pre, (handle_image upd getFileResult procI).1 =
        pre ++ [Action.replyText ("Error processing image: " ++ e)]) := by
  refine ⟨handle_message_no_escape BOT_NAME upd procM,
          handle_image_no_escape upd getFileResult procI, ?_, ?_⟩
  · intro e hpe htr
    subst hpe
    cases upd with
    | mk om =>
      cases om with
      | none => exact absurd rfl htr
      | some m =>
        cases htx : m.text with
        | none => exact absurd (by simp [handle_message, htx]) htr
        | some t =>
          by_cases hte : t = ""
          · exact absurd (by simp [handle_message, htx, hte]) htr
          · by_cases hin : pyIn ("@" ++ BOT_NAME) t = true
            · rw [handle_message_activated BOT_NAME m t _ htx hte hin]
              exact ⟨[Action.replyText "Processing with AI...",
                      Action.callProcess ⟨t, toString m.chat.id, m.from_user.username, none⟩,
                      Action.deleteMsg], rfl⟩
            · rw [Bool.not_eq_true] at hin
              exact absurd (by simp [handle_message, htx, hte, hin]) htr
  · intro e hre htr
    cases upd with
    | mk om =>
      cases om with
      | none => exact absurd rfl htr
      | some m =>
        cases hfid : selectedFileId m with
        | none => exact absurd (by simp [handle_image, hfid]) htr
        | some fid =>
          cases hres : resolutionError getFileResult with
          | some e2 =>
            have he2 : e2 = e := by
              simp [raisedInImage, hres] at hre
              exact hre
            subst he2
            rw [handle_image_unresolved m fid getFileResult procI e2 hfid hres]
            exact ⟨[Action.replyText "Processing with AI...", Action.getFile fid,
                    Action.deleteMsg], rfl⟩
          | none =>
            obtain ⟨file, p, hgf, hp, hpne⟩ := resolutionError_none getFileResult hres
            subst hgf
            have hpi : procI = Except.error e := by
              cases procI with
              | ok r => simp [raisedInImage, hres] at hre
              | error e3 =>
                simp [raisedInImage, hres] at hre
                rw [hre]
            subst hpi
            rw [handle_image_resolved m fid file p _ hfid hp hpne]
            exact ⟨[Action.replyText "Processing with AI...", Action.getFile fid,
                    Action.callProcess ⟨"", toString m.chat.id, m.from_user.username, some p⟩,
                    Action.deleteMsg], rfl⟩

/-- Concrete instance of `claim_C7_exceptions_contained`: a failing AI call
on a mentioning text event surfaces as an error reply. -/
theorem claim_C7_witness :
    ∃ pre, (handle_message "SplitBot" mentionUpdate (Except.error "boom")).1 =
      pre ++ [Action.replyText ("Error processing message: " ++ "boom")] :=
  (claim_C7_exceptions_contained "SplitBot" mentionUpdate
    (Except.ok ⟨some "http://file"⟩) (Except.error "boom")
    (Except.ok "r")).2.2.1 "boom" rfl (by decide)

/-- Claim C9, as stated, is false: the handlers pass `from_user.username` as
`sender`, and for an author without a username the serialized payload
carries `sender` as JSON null, not a string.  Concretely, a mentioning text
event from such an author produces an outbound call whose payload's
`sender` key holds null. -/
theorem claim_C9_counterexample :
    Action.callProcess ⟨"@SplitBot split 30", "77", none, none⟩ ∈
      (handle_message "SplitBot" noUsernameUpdate (Except.ok "ok")).1 ∧
    (SplitBotRequest.mk "@SplitBot split 30" "77" none none).to_dict.lookup "sender" =
      some JsonVal.null := by
  exact ⟨by decide, by decide⟩

/-- Claim C9 (amended): in every serialized request payload the `sender`
key is always present and holds the event author's username — a JSON string
when the author has a username, JSON null when they do not. -/
theorem claim_C9_sender_field (BOT_NAME : String) (upd : Update)
    (getFileResult : Except String TGFile) (procM procI : Except String String)
    (m : Message) (req : SplitBotRequest) (hm : upd.message = some m)
    (hmem : Action.callProcess req ∈ (handle_message BOT_NAME upd procM).1 ∨
            Action.callProcess req ∈ (handle_image upd getFileResult procI).1) :
    req.sender = m.from_user.username ∧
    ("sender", jsonOfPyStr m.from_user.username) ∈ req.to_dict ∧
    (m.from_user.username = none → ("sender", JsonVal.null) ∈ req.to_dict) := by
  have hupd : upd = ⟨some m⟩ := by
    cases upd with
    | mk om =>
      have h2 : om = some m := hm
      rw [h2]
  subst hupd
  have hsender : req.sender = m.from_user.username := by
    rcases hmem with hmem | hmem
    · obtain ⟨t, ht, hin, hreq⟩ := handle_message_call_inv BOT_NAME m procM req hmem
      rw [hreq]
    · obtain ⟨p, hpne, hreq⟩ := handle_image_call_inv m getFileResult procI req hmem
      rw [hreq]
  have hmem2 : ("sender", jsonOfPyStr req.sender) ∈ req.to_dict := by
    obtain ⟨ms, g, s, iu⟩ := req
    cases iu <;> simp [SplitBotRequest.to_dict]
  refine ⟨hsender, by rw [← hsender]; exact hmem2, fun hnone => ?_⟩
  have hnull : jsonOfPyStr req.sender = JsonVal.null := by
    rw [hsender, hnone]
    rfl
  rw [← hnull]
  exact hmem2

/-- Concrete instance of `claim_C9_sender_field`: for an author without a
username, the handler-built payload carries `sender` as JSON null. -/
theorem claim_C9_witness :
    ("sender", JsonVal.null) ∈
      (SplitBotRequest.mk "@SplitBot split 30" "77" none none).to_dict :=
  (claim_C9_sender_field "SplitBot" noUsernameUpdate (Except.ok ⟨some "http://file"⟩)
    (Except.ok "ok") (Except.ok "r") noUsernameMsg
    ⟨"@SplitBot split 30", "77", none, none⟩ rfl (Or.inl (by decide))).2.2 rfl

end SplitBot

